import Mathlib

/-!
# Verification of the fund-screener pipeline (qjlxg/port)

Shallow embedding of the core logic of the repository's screener scripts:

* `getURL`                — the retrying fetcher of `advanced_fund_screener.py` /
                            `integrated_fund_screener.py` (lines 37-51 / 41-54);
* `get_fund_net_values`   — the source-fallback chain of `fund_screener.py` (680-706);
* `get_fund_fee`          — the cached fee fetch of `fund_screener.py` (804-832);
* `get_fund_rankings_filtered` / `apply_4433_rule_integrated`
                          — the "4-4-3-3" percentile pre-filter, merge loop
                            included (`advanced_fund_screener.get_fund_rankings`
                            53-112 and `integrated_fund_screener.get_fund_rankings`
                            126-169 / `apply_4433_rule` 171-183);
* `calculate_metrics`     — the metrics engine of `fund_screener.py` (875-891);
* `analyzeFund`           — the risk block of `integrated_fund_screener.analyze_fund`
                            (534-573);
* `compositeScore`        — the weighted scorer of
                            `advanced_fund_screener.calculate_composite_score` (244-289);
* `calculate_score_and_filter` — the scoring/filter block of `fund_screener.py` (929-982).

Python floats are modelled by `ℝ` (for the metrics engine, whose formulas use
`sqrt` and real powers) and by `ℚ` (for the comparison/filter logic, which is
exact).  A float expression whose value would be `NaN` or `±inf` (division by
zero, sample std of fewer than two points) is modelled as `none`.
-/

/-- `MIN_DAYS = 100` of `fund_screener.py` (line 38): minimal series length. -/
def MIN_DAYS : Nat := 100

/-! ## Retrying fetcher (`getURL` of both screener scripts)

`getURL(url, tries_num)` loops `for i in range(tries_num)`, returning the
response on the first successful attempt and `None` after the loop.  The
network is modelled by `fetch : Nat → Option α` giving attempt `i`'s result
(`none` = a transient `requests.RequestException`, caught by the `except`).
The second component counts the attempts actually made. -/

/-- Attempts the fetch at indices `i, i+1, …` while fuel remains, mirroring the
remaining iterations of `getURL`'s `for i in range(tries_num)` loop.  Returns
the first successful payload (and how many attempts were made), or `none` and
the number of failed attempts once the range is exhausted. -/
def getURLFrom (fetch : Nat → Option α) : Nat → Nat → Option α × Nat
  | _, 0 => (none, 0)
  | i, fuel + 1 =>
    match fetch i with
    | some res => (some res, 1)
    | none =>
      let r := getURLFrom fetch (i + 1) fuel
      (r.1, r.2 + 1)

/-- `getURL(url, tries_num)`: run the retry loop from attempt `0`. -/
def getURL (fetch : Nat → Option α) (tries_num : Nat) : Option α × Nat :=
  getURLFrom fetch 0 tries_num

/-! ## Source fallback chain (`get_fund_net_values`, `fund_screener.py` 680-706)

The source tries, in order: the pickle cache, the `pingzhongdata` endpoint,
then the `lsjz` endpoint.  A provider's payload is accepted iff
`not df.empty and len(df) >= MIN_DAYS`; the helpers return an empty frame on
any fetch/parse failure, so an empty list models both "fetch failed" and
"empty payload".  On acceptance the payload is returned tagged with the
provider's name; if all providers fail the result is `(empty, 'None')`.
The final component records which providers were invoked, in order. -/

/-- `not df.empty and len(df) >= MIN_DAYS` — the semantic validation a
provider's payload must pass in `get_fund_net_values`. -/
def validSeries (df : List ℚ) : Bool :=
  !df.isEmpty && decide (MIN_DAYS ≤ df.length)

/-- The fallback chain over an ordered provider list `(name, payload)`.
Returns `((payload, tag), invoked)` where `invoked` lists the providers
actually tried, in order. -/
def get_fund_net_values : List (String × List ℚ) → (List ℚ × String) × List String
  | [] => (([], "None"), [])
  | (name, df) :: rest =>
    if validSeries df then ((df, name), [name])
    else
      let r := get_fund_net_values rest
      (r.1, name :: r.2)

/-- The provider order hard-coded in `get_fund_net_values`. -/
def netValueProviders (cache ping lsjz : List ℚ) : List (String × List ℚ) :=
  [("cache", cache), ("pingzhongdata", ping), ("lsjz", lsjz)]

/-! ## Cached fee fetch (`get_fund_fee`, `fund_screener.py` 804-832)

The cache is one pickle file per fund code under `CACHE_DIR`; it is modelled
as an association list `code ↦ fee`.  The function first tries the cache
(an unreadable/absent file falls through); on a miss it fetches
`pingzhongdata` — `fetch = none` models a failed request (the
`requests.RequestException` handler returns the default `1.5`),
`fetch = some none` a response in which the `ManagerFee` regex does not match
(the code substitutes `1.5` and caches it), and `fetch = some (some f)` a
parsed fee.  `persist_ok` models whether `pickle.dump` succeeds: the dump is
inside the big `try`, so a dump failure is caught by `except Exception` and
the call returns the default `1.5`; the cache file is then absent or
unreadable, which a later call treats as a miss, so the store is modelled as
unchanged. -/

/-- `get_fund_fee(code)` over an explicit cache state; returns the fee and the
new cache state. -/
def get_fund_fee (cache : List (String × ℚ)) (code : String)
    (fetch : Option (Option ℚ)) (persist_ok : Bool) : ℚ × List (String × ℚ) :=
  match cache.lookup code with
  | some v => (v, cache)
  | none =>
    match fetch with
    | none => (3/2, cache)
    | some m =>
      let fee := m.getD (3/2)
      if persist_ok then (fee, (code, fee) :: cache) else (3/2, cache)

/-! ## Percentile pre-filter ("4-4-3-3" rule)

`get_fund_rankings` (advanced variant, lines 53-112) builds one ranking
snapshot per lookback window; a window whose fetch/parse failed contributes an
empty frame.  Every loaded snapshot keeps, besides its period-specific
`rose/rank/rank_r` columns, the period-independent column label `'name'`
(`rename(columns={0: 'code', 1: 'name', 3: f'rose({period})'})`, line 81/151),
with `'code'` made the index.  The merge loops then call `DataFrame.join`
with no `lsuffix`/`rsuffix` (advanced line 100, `how='outer'`, skipping empty
frames; integrated line 164, `how='inner'`, over the successfully loaded
frames only), and pandas raises
`ValueError: columns overlap but no suffix specified: Index(['name'])`
as soon as a second column-bearing frame is joined — the per-period
`try/except` has already ended and no caller catches it.  The join (and hence
any crash in it) is modelled explicitly: `dfJoin` tracks each frame's column
labels and fails on overlap, and the whole pre-filter returns
`Except String (List String)`, with `Except.error` standing for the uncaught
`ValueError`.  When the join succeeds, the per-window filter keeps only rows
with `rank_r <= threshold` for each window whose `rank_r` column is present
(a fund absent from a joined window has `NaN` there, and `NaN <= t` is
`False`, so it is dropped). -/

/-- One lookback window: its period label, its ranking snapshot
(`code ↦ rank_r`, empty iff the fetch failed or returned no records) and its
percentile threshold. -/
structure RankWindow where
  period : String
  snap : List (String × ℚ)
  thr : ℚ

/-- The column labels a loaded snapshot carries after line 81-84/151-154:
the shared `'name'` plus the period-suffixed value columns (`'code'` is the
index, not a column). -/
def snapCols (w : RankWindow) : List String :=
  ["name", "rose(" ++ w.period ++ ")", "rank(" ++ w.period ++ ")",
    "rank_r(" ++ w.period ++ ")"]

/-- A (possibly merged) ranking frame: its column labels and its index of
fund codes.  A failed window's empty frame has neither. -/
structure MergedFrame where
  cols : List String
  codes : List String

/-- `DataFrame.join` without `lsuffix`/`rsuffix`: raises `ValueError` when the
two frames' column labels overlap; otherwise concatenates the columns and
takes the union (`how='outer'`) or intersection (`how='inner'`) of the code
indexes. -/
def dfJoin (outer : Bool) (acc : MergedFrame) (w : RankWindow) :
    Except String MergedFrame :=
  if (acc.cols.inter (snapCols w)).isEmpty then
    Except.ok ⟨acc.cols ++ snapCols w,
      if outer then (acc.codes ++ w.snap.map Prod.fst).dedup
      else acc.codes.filter fun c => (w.snap.lookup c).isSome⟩
  else Except.error "columns overlap but no suffix specified"

/-- The window's frame as appended to `all_data`: empty (no columns, no
index) when the fetch failed, else its columns and codes. -/
def windowFrame (w : RankWindow) : MergedFrame :=
  if w.snap.isEmpty then ⟨[], []⟩ else ⟨snapCols w, w.snap.map Prod.fst⟩

/-- The merge loop of the advanced `get_fund_rankings` (lines 97-100):
`merged_df = all_data[0].copy()`, then outer-join each later non-empty
frame. -/
def mergeOuter : List RankWindow → Except String MergedFrame
  | [] => Except.ok ⟨[], []⟩
  | w :: rest =>
    rest.foldl
      (fun acc w' =>
        match acc with
        | Except.error e => Except.error e
        | Except.ok a => if w'.snap.isEmpty then Except.ok a else dfJoin true a w')
      (Except.ok (windowFrame w))

/-- The merge loop of the integrated `get_fund_rankings` (lines 161-164):
`all_data` holds only the successfully loaded (hence non-empty) frames;
`df_final = all_data[0]`, then inner-join the rest.  With no loaded frame the
function returns an empty frame instead. -/
def mergeInner (ws : List RankWindow) : Except String MergedFrame :=
  match ws.filter fun w => !w.snap.isEmpty with
  | [] => Except.ok ⟨[], []⟩
  | w :: rest =>
    rest.foldl
      (fun acc w' =>
        match acc with
        | Except.error e => Except.error e
        | Except.ok a => dfJoin false a w')
      (Except.ok ⟨snapCols w, w.snap.map Prod.fst⟩)

/-- `filtered_df[filtered_df[rank_col] <= threshold]` at one row: the fund's
`rank_r` exists in the window and is within the threshold (`NaN <= t` is
`False` in pandas, so a missing entry never passes). -/
def windowPass (w : RankWindow) (c : String) : Bool :=
  match w.snap.lookup c with
  | some p => decide (p ≤ w.thr)
  | none => false

/-- The sequential per-window filtering loop: a window's `rank_r` column is in
the merged frame iff that window's snapshot is non-empty, so empty windows are
skipped (`if rank_col in filtered_df.columns`). -/
def filterWindows (ws : List RankWindow) (start : List String) : List String :=
  ws.foldl (fun acc w => if w.snap.isEmpty then acc else acc.filter (windowPass w)) start

/-- The advanced pre-filter end to end (lines 92-112): all snapshots empty
gives the early empty frame; otherwise merge, then apply the 4433 thresholds;
`Except.error` models the uncaught pandas `ValueError` escaping
`get_fund_rankings`. -/
def get_fund_rankings_filtered (ws : List RankWindow) : Except String (List String) :=
  if ws.all (fun w => w.snap.isEmpty) then Except.ok []
  else (mergeOuter ws).map fun mf => filterWindows ws mf.codes

/-- The integrated pipeline `get_fund_rankings` → `apply_4433_rule`
(lines 126-183): inner-merge the loaded snapshots, then apply the same
per-window threshold filter. -/
def apply_4433_rule_integrated (ws : List RankWindow) : Except String (List String) :=
  (mergeInner ws).map fun mf => filterWindows ws mf.codes

/-- The five windows with the hard-coded thresholds
`{'3y': 0.25, '2y': 0.25, '1y': 0.25, '6m': 1/3, '3m': 1/3}`. -/
def windows4433 (s3y s2y s1y s6m s3m : List (String × ℚ)) : List RankWindow :=
  [⟨"3y", s3y, 1/4⟩, ⟨"2y", s2y, 1/4⟩, ⟨"1y", s1y, 1/4⟩,
    ⟨"6m", s6m, 1/3⟩, ⟨"3m", s3m, 1/3⟩]

/-! ## Composite scorer (`calculate_composite_score`,
`advanced_fund_screener.py` 244-289)

After min-max normalisation, each fund row holds the five (possibly `NaN`,
modelled `none`) score columns.  The row's composite score is
`sum(row[col] * weight for col, weight in weights.items() if not pd.isna(row[col]))`:
a missing column's term is simply skipped — its weight is dropped, not
redistributed. -/

/-- One fund's normalised score columns (`NaN` entries are `none`). -/
structure DeepRow where
  sharpe_score : Option ℚ
  max_drawdown_score : Option ℚ
  manager_term_score : Option ℚ
  concentration_score : Option ℚ
  ranking_score : Option ℚ

/-- The weight dict used when the `rank(1y)` column is available
(`{'sharpe_score': 0.30, 'max_drawdown_score': 0.20, 'manager_term_score': 0.20,
'concentration_score': 0.10, 'ranking_score': 0.20}`). -/
def weightsWithRanking : List ((DeepRow → Option ℚ) × ℚ) :=
  [(DeepRow.sharpe_score, 30/100), (DeepRow.max_drawdown_score, 20/100),
   (DeepRow.manager_term_score, 20/100), (DeepRow.concentration_score, 10/100),
   (DeepRow.ranking_score, 20/100)]

/-- The fallback weight dict used when ranking data is missing
(`{'sharpe_score': 0.35, 'max_drawdown_score': 0.25, 'manager_term_score': 0.25,
'concentration_score': 0.15}`). -/
def weightsNoRanking : List ((DeepRow → Option ℚ) × ℚ) :=
  [(DeepRow.sharpe_score, 35/100), (DeepRow.max_drawdown_score, 25/100),
   (DeepRow.manager_term_score, 25/100), (DeepRow.concentration_score, 15/100)]

/-- The row's weighted sum, skipping `NaN` columns. -/
def compositeScore (ws : List ((DeepRow → Option ℚ) × ℚ)) (r : DeepRow) : ℚ :=
  (ws.map fun pw => match pw.1 r with | some v => v * pw.2 | none => 0).sum

/-- The total of the weights actually applied to the row: a column's weight
counts iff the column is present. -/
def appliedWeightSum (ws : List ((DeepRow → Option ℚ) × ℚ)) (r : DeepRow) : ℚ :=
  (ws.map fun pw => match pw.1 r with | some _ => pw.2 | none => 0).sum

/-! ## Screening filter block (`calculate_score_and_filter`,
`fund_screener.py` 929-982)

Given the computed metrics (in percent, as stored by `calculate_metrics`),
the fee and the top-3 industry concentration, the block adds
30/25/20/15/10 points for the five criteria, collects a reason for each
failed one, and returns the record only when `reason_list` is empty
(otherwise `None`). -/

/-- `MIN_RETURN = 3.0` (`fund_screener.py` line 33). -/
def MIN_RETURN : ℚ := 3
/-- `MAX_VOLATILITY = 25.0` (line 34). -/
def MAX_VOLATILITY : ℚ := 25
/-- `MIN_SHARPE = 0.2` (line 35). -/
def MIN_SHARPE : ℚ := 1/5
/-- `MAX_FEE = 2.5` (line 36). -/
def MAX_FEE : ℚ := 5/2

/-- The metrics dict produced by `calculate_metrics`, with the percent scaling
used by the screening comparisons. -/
structure ScreenMetrics where
  annual_return_pct : ℚ
  annual_volatility_pct : ℚ
  sharpe_ratio : ℚ

/-- The fields of the returned record relevant to the claim: `综合评分`
(composite score) and `筛选结果` (verdict). -/
structure ScreenResult where
  score : Nat
  verdict : String

/-- The scoring/filter block of `calculate_score_and_filter`: five independent
criteria, each adding its points or a rejection reason; the record is returned
iff no reason accumulated. -/
def calculate_score_and_filter (m : ScreenMetrics) (fee top3_concentration : ℚ) :
    Option ScreenResult :=
  let s1 : Nat := if MIN_RETURN ≤ m.annual_return_pct then 30 else 0
  let r1 : List String := if MIN_RETURN ≤ m.annual_return_pct then [] else ["收益率过低"]
  let s2 : Nat := if m.annual_volatility_pct ≤ MAX_VOLATILITY then 25 else 0
  let r2 : List String := if m.annual_volatility_pct ≤ MAX_VOLATILITY then [] else ["波动率过高"]
  let s3 : Nat := if MIN_SHARPE ≤ m.sharpe_ratio then 20 else 0
  let r3 : List String := if MIN_SHARPE ≤ m.sharpe_ratio then [] else ["夏普比率过低"]
  let s4 : Nat := if fee ≤ MAX_FEE then 15 else 0
  let r4 : List String := if fee ≤ MAX_FEE then [] else ["管理费过高"]
  let s5 : Nat := if top3_concentration ≤ 60 then 10 else 0
  let r5 : List String := if top3_concentration ≤ 60 then [] else ["行业集中度过高"]
  let score := s1 + s2 + s3 + s4 + s5
  let reason_list := r1 ++ r2 ++ r3 ++ r4 ++ r5
  if reason_list.isEmpty then some ⟨score, "合格"⟩ else none

/-! ## Metrics engine

`fund_screener.calculate_metrics` (875-891) and
`integrated_fund_screener.analyze_fund` (534-573), over `ℝ`.  `pct_change()`
produces `NaN` at index 0, which pandas drops from every aggregate
(`std`, `mean`, `max`, `min`), so the model's list of daily returns starts at
the second price point.  A sample standard deviation (`ddof=1`) of fewer than
two values is `NaN` in pandas; where that matters (`analyzeFund`) it is
modelled as `none`. -/

/-- `RISK_FREE_RATE = 3.0` (`fund_screener.py` line 37), in percent. -/
def RISK_FREE_RATE : ℝ := 3

/-- `series.pct_change()` without the leading `NaN`:
daily return at `i` is `value[i] / value[i-1] - 1`. -/
noncomputable def pctChange (xs : List ℝ) : List ℝ :=
  (xs.zip xs.tail).map fun p => p.2 / p.1 - 1

/-- The arithmetic mean of a list (pandas `mean`). -/
noncomputable def listMean (xs : List ℝ) : ℝ :=
  xs.sum / (xs.length : ℝ)

/-- Pandas `std()` with `ddof=1`: the sample standard deviation.  (For lists of
fewer than two elements pandas yields `NaN`; callers that can reach that case
guard it explicitly.) -/
noncomputable def sampleStd (xs : List ℝ) : ℝ :=
  Real.sqrt ((xs.map fun x => (x - listMean xs) ^ 2).sum / ((xs.length : ℝ) - 1))

/-- Pandas `max()` over a series (`none` on an empty list). -/
noncomputable def listMaximum (xs : List ℝ) : Option ℝ :=
  match xs with
  | [] => none
  | x :: r => some (r.foldl max x)

/-- Pandas `min()` over a series (`none` on an empty list). -/
noncomputable def listMinimum (xs : List ℝ) : Option ℝ :=
  match xs with
  | [] => none
  | x :: r => some (r.foldl min x)

/-- The dict returned by `calculate_metrics`: the first two fields carry the
`* 100` percent scaling applied at lines 888-889. -/
structure FundMetrics where
  annual_return_pct : ℝ
  annual_volatility_pct : ℝ
  sharpe_ratio : ℝ

/-- `calculate_metrics(df)` (`fund_screener.py` 875-891):
`None` when `df.empty or len(df) < MIN_DAYS` (the `isnull().all()` guard on
the returns cannot fire for real-valued series of length ≥ 2);
otherwise annual return `(last/first) ** (252/len(df)) - 1`, annual volatility
`std(daily_return) * sqrt(252)`, and Sharpe
`(annual_return - RISK_FREE_RATE/100) / annual_volatility if annual_volatility > 0 else 0`. -/
noncomputable def calculate_metrics (navs : List ℝ) : Option FundMetrics :=
  if navs.length < MIN_DAYS then none
  else
    let annual_return :=
      (navs.getLastD 0 / navs.headD 0) ^ ((252 : ℝ) / (navs.length : ℝ)) - 1
    let annual_volatility := sampleStd (pctChange navs) * Real.sqrt 252
    let sharpe_ratio :=
      if 0 < annual_volatility then (annual_return - RISK_FREE_RATE / 100) / annual_volatility
      else 0
    some ⟨annual_return * 100, annual_volatility * 100, sharpe_ratio⟩

/-- The risk dict of `analyze_fund`; a field is `none` when the float
expression computing it is undefined (`NaN`/`±inf`). -/
structure RiskResult where
  annual_returns : Option ℝ
  annual_volatility : Option ℝ
  sharpe_ratio : Option ℝ
  max_drawdown : Option ℝ

/-- `analyze_fund` (`integrated_fund_screener.py` 534-573), after the data
fetch: `{"error": ...}` (modelled `none`) when the return series is empty,
else `annual_returns = returns.mean() * 252`,
`annual_volatility = returns.std() * sqrt(252)` (`NaN`, i.e. `none`, for a
single return), `sharpe_ratio = (annual_returns - 0.03) / annual_volatility`
(`±inf`/`NaN`, i.e. `none`, when the volatility is `0` or itself undefined)
and `max_drawdown = (returns.max() - returns.min()) / returns.max()`
(`NaN`, i.e. `none`, when `returns.max()` is `0`). -/
noncomputable def analyzeFund (navs : List ℝ) : Option RiskResult :=
  let returns := pctChange navs
  if returns.isEmpty then none
  else
    let annual_returns := listMean returns * 252
    let annual_volatility : Option ℝ :=
      if returns.length ≤ 1 then none else some (sampleStd returns * Real.sqrt 252)
    let sharpe_ratio : Option ℝ :=
      match annual_volatility with
      | none => none
      | some vol => if vol = 0 then none else some ((annual_returns - 3 / 100) / vol)
    let max_drawdown : Option ℝ :=
      match listMaximum returns, listMinimum returns with
      | some mx, some mn => if mx = 0 then none else some ((mx - mn) / mx)
      | _, _ => none
    some ⟨some annual_returns, annual_volatility, sharpe_ratio, max_drawdown⟩

/-- Modelled from the spec: `total_return`, the overall return of the series,
so that `1 + total_return = last/first`. -/
noncomputable def totalReturn (navs : List ℝ) : ℝ :=
  navs.getLastD 0 / navs.headD 0 - 1

/-- Modelled from the spec (for comparison with `calculate_metrics`):
"Annualized return = `(1+total_return)^(252/n) − 1` where n = number of return
observations", i.e. `n = len(df) - 1`. -/
noncomputable def specAnnualReturn (navs : List ℝ) : ℝ :=
  (1 + totalReturn navs) ^ ((252 : ℝ) / ((navs.length : ℝ) - 1)) - 1

/-! # Theorems -/

/-! ## C6: the retrying fetcher -/

theorem getURLFrom_eq_of_all_fail (fetch : Nat → Option α)
    (h : ∀ i, fetch i = none) :
    ∀ start fuel, getURLFrom fetch start fuel = (none, fuel)
  | _, 0 => rfl
  | start, fuel + 1 => by
    simp only [getURLFrom, h start]
    rw [getURLFrom_eq_of_all_fail fetch h (start + 1) fuel]

/-- C6: for every request whose every attempt fails transiently, `getURL`
makes exactly `tries_num` attempts and returns `None` (a failure outcome, not
an exception and not a success). -/
theorem c6_retry_exhaustion (fetch : Nat → Option α) (tries_num : Nat)
    (h : ∀ i, fetch i = none) :
    getURL fetch tries_num = (none, tries_num) :=
  getURLFrom_eq_of_all_fail fetch h 0 tries_num

theorem c6_retry_exhaustion_witness :
    getURL (fun _ => (none : Option String)) 5 = (none, 5) :=
  c6_retry_exhaustion (fun _ => none) 5 (fun _ => rfl)

/-! ## C5: the source fallback chain -/

theorem get_fund_net_values_first_valid :
    ∀ (ps : List (String × List ℚ)) (i : Nat), i < ps.length →
      (∀ j, j < i → validSeries (ps.getD j ("", [])).2 = false) →
      validSeries (ps.getD i ("", [])).2 = true →
      get_fund_net_values ps =
        (((ps.getD i ("", [])).2, (ps.getD i ("", [])).1),
          (ps.take (i + 1)).map Prod.fst)
  | [], i, hi, _, _ => absurd hi (by simp)
  | (name, df) :: rest, 0, _, _, hvalid => by
    simp only [List.getD_cons_zero] at hvalid
    simp [get_fund_net_values, hvalid]
  | (name, df) :: rest, i + 1, hi, hfail, hvalid => by
    have h0 : validSeries df = false := by
      have := hfail 0 (Nat.succ_pos i)
      simpa using this
    have hrec := get_fund_net_values_first_valid rest i
      (Nat.lt_of_succ_lt_succ (by simpa using hi))
      (fun j hj => by simpa using hfail (j + 1) (Nat.succ_lt_succ hj))
      (by simpa using hvalid)
    simp [get_fund_net_values, h0, hrec]

theorem get_fund_net_values_all_fail :
    ∀ ps : List (String × List ℚ), (∀ p ∈ ps, validSeries p.2 = false) →
      get_fund_net_values ps = (([], "None"), ps.map Prod.fst)
  | [], _ => rfl
  | (name, df) :: rest, h => by
    have h0 : validSeries df = false := h (name, df) (List.mem_cons_self _ _)
    have hrec := get_fund_net_values_all_fail rest (fun p hp => h p (List.mem_cons_of_mem _ hp))
    simp [get_fund_net_values, h0, hrec]

/-- C5: providers are tried strictly in order; a provider fails iff its payload
is empty (fetch failure) or shorter than `MIN_DAYS` (semantic validation); the
first valid provider's payload is returned tagged with that provider's name and
no later provider is invoked (the invocation trace stops at position `i`); if
every provider fails the chain returns the empty payload tagged `'None'`. -/
theorem c5_fallback_chain :
    (∀ (ps : List (String × List ℚ)) (i : Nat), i < ps.length →
      (∀ j, j < i → validSeries (ps.getD j ("", [])).2 = false) →
      validSeries (ps.getD i ("", [])).2 = true →
      get_fund_net_values ps =
        (((ps.getD i ("", [])).2, (ps.getD i ("", [])).1),
          (ps.take (i + 1)).map Prod.fst))
    ∧ (∀ ps : List (String × List ℚ), (∀ p ∈ ps, validSeries p.2 = false) →
      get_fund_net_values ps = (([], "None"), ps.map Prod.fst)) :=
  ⟨get_fund_net_values_first_valid, get_fund_net_values_all_fail⟩

theorem c5_fallback_chain_witness :
    get_fund_net_values (netValueProviders [] (List.replicate 100 1) [1]) =
      ((List.replicate 100 1, "pingzhongdata"), ["cache", "pingzhongdata"])
    ∧ get_fund_net_values (netValueProviders [] [] []) =
      (([], "None"), ["cache", "pingzhongdata", "lsjz"]) :=
  ⟨c5_fallback_chain.1 (netValueProviders [] (List.replicate 100 1) [1]) 1
      (by decide) (by decide) (by decide),
    c5_fallback_chain.2 (netValueProviders [] [] []) (by decide)⟩

/-! ## C1: the percentile pre-filter -/

theorem windowPass_iff {w : RankWindow} {c : String} :
    windowPass w c = true ↔ ∃ p, w.snap.lookup c = some p ∧ p ≤ w.thr := by
  unfold windowPass
  cases h : w.snap.lookup c <;> simp [h]

theorem mem_filterWindows (ws : List RankWindow) (start : List String) (c : String) :
    c ∈ filterWindows ws start ↔
      c ∈ start ∧ ∀ w ∈ ws, w.snap.isEmpty = false → windowPass w c = true := by
  induction ws generalizing start with
  | nil => simp [filterWindows]
  | cons w rest ih =>
    rw [filterWindows, List.foldl_cons]
    by_cases hw : w.snap.isEmpty
    · rw [if_pos hw]
      rw [show rest.foldl (fun acc w =>
          if w.snap.isEmpty then acc else acc.filter (windowPass w)) start =
        filterWindows rest start from rfl, ih]
      simp only [List.forall_mem_cons, hw]
      constructor
      · rintro ⟨hs, hrest⟩
        exact ⟨hs, fun h => absurd h (by simp), hrest⟩
      · rintro ⟨hs, -, hrest⟩
        exact ⟨hs, hrest⟩
    · rw [if_neg hw]
      rw [show rest.foldl (fun acc w =>
          if w.snap.isEmpty then acc else acc.filter (windowPass w))
            (start.filter (windowPass w)) =
        filterWindows rest (start.filter (windowPass w)) from rfl, ih]
      rw [List.mem_filter]
      simp only [List.forall_mem_cons, eq_false_of_ne_true hw]
      constructor
      · rintro ⟨⟨hs, hp⟩, hrest⟩
        exact ⟨hs, fun _ => hp, hrest⟩
      · rintro ⟨hs, hp, hrest⟩
        exact ⟨⟨hs, hp trivial⟩, hrest⟩

/-- C1, evaluating the code at the failing input: as soon as two ranking
windows load (here 3y and 2y, each holding fund A within threshold — a
configuration in which the claim puts A in the filter's output), both merge
loops raise pandas' `ValueError`: every loaded snapshot carries the `'name'`
column and `DataFrame.join` is called without suffixes, so the program
crashes before any filtering and no output exists.  With a single loaded
window the join trivially succeeds and the threshold filter produces the
claimed output (A kept at percentile `0.1 ≤ 1/4`, B dropped at
`0.3 > 1/4`) — the spec's filter is the clear intent, the crash a slip. -/
theorem c1_percentile_prefilter_join_crash :
    get_fund_rankings_filtered
        (windows4433 [("A", 1/10)] [("A", 1/10)] [] [] []) =
      Except.error "columns overlap but no suffix specified"
    ∧ apply_4433_rule_integrated
        (windows4433 [("A", 1/10)] [("A", 1/10)] [] [] []) =
      Except.error "columns overlap but no suffix specified"
    ∧ get_fund_rankings_filtered
        (windows4433 [("A", 1/10), ("B", 3/10)] [] [] [] []) =
      Except.ok ["A"]
    ∧ apply_4433_rule_integrated
        (windows4433 [("A", 1/10), ("B", 3/10)] [] [] [] []) =
      Except.ok ["A"] := by
  have hA : windowPass ⟨"3y", [("A", (1 : ℚ)/10), ("B", 3/10)], 1/4⟩ "A" = true := by
    simp [windowPass, List.lookup]
    norm_num
  have hB : windowPass ⟨"3y", [("A", (1 : ℚ)/10), ("B", 3/10)], 1/4⟩ "B" = false := by
    simp [windowPass, List.lookup]
    norm_num
  simp only [one_div] at hA hB
  refine ⟨rfl, rfl, ?_, ?_⟩
  · simp [get_fund_rankings_filtered, windows4433, mergeOuter, windowFrame, snapCols,
      filterWindows, Except.map, hA, hB, List.foldl_cons, List.foldl_nil,
      List.filter_cons, List.filter_nil]
  · simp [apply_4433_rule_integrated, windows4433, mergeInner, snapCols,
      filterWindows, Except.map, hA, hB, List.foldl_cons, List.foldl_nil,
      List.filter_cons, List.filter_nil]

/-! ## C4: composite-scorer weight renormalisation -/

/-- C4 counterexample: a fund whose `concentration_score` is missing has the
remaining weights applied as-is — they sum to `0.9`, not `1`; no
renormalisation happens. -/
theorem c4_weight_renormalization_cex :
    appliedWeightSum weightsWithRanking ⟨some 1, some 1, some 1, none, some 1⟩ ≠ 1 := by
  simp only [appliedWeightSum, weightsWithRanking, List.map, List.sum_cons, List.sum_nil]
  norm_num

/-- C4 amended: the weights actually applied to a fund's weighted sum total
`1` exactly when the fund is missing no weighted metric; a missing metric's
weight is silently dropped (both weight configurations sum to `1` over the
full metric set). -/
theorem c4_weight_renormalization (r : DeepRow) :
    (appliedWeightSum weightsWithRanking r = 1 ↔
      r.sharpe_score.isSome = true ∧ r.max_drawdown_score.isSome = true ∧
      r.manager_term_score.isSome = true ∧ r.concentration_score.isSome = true ∧
      r.ranking_score.isSome = true)
    ∧ (appliedWeightSum weightsNoRanking r = 1 ↔
      r.sharpe_score.isSome = true ∧ r.max_drawdown_score.isSome = true ∧
      r.manager_term_score.isSome = true ∧ r.concentration_score.isSome = true) := by
  obtain ⟨s, d, t, co, rk⟩ := r
  cases s <;> cases d <;> cases t <;> cases co <;> cases rk <;>
    simp [appliedWeightSum, weightsWithRanking, weightsNoRanking] <;> norm_num

theorem c4_weight_renormalization_witness :
    (appliedWeightSum weightsWithRanking ⟨some 1, some 0, some 1, some 0, some 1⟩ = 1 ↔
      (some (1 : ℚ)).isSome = true ∧ (some (0 : ℚ)).isSome = true ∧
      (some (1 : ℚ)).isSome = true ∧ (some (0 : ℚ)).isSome = true ∧
      (some (1 : ℚ)).isSome = true)
    ∧ (appliedWeightSum weightsNoRanking ⟨some 1, some 0, some 1, some 0, some 1⟩ = 1 ↔
      (some (1 : ℚ)).isSome = true ∧ (some (0 : ℚ)).isSome = true ∧
      (some (1 : ℚ)).isSome = true ∧ (some (0 : ℚ)).isSome = true) :=
  c4_weight_renormalization ⟨some 1, some 0, some 1, some 0, some 1⟩

/-! ## C9: cache round trip -/

/-- C9: putting `(code, v)` into the fee cache (a fetch that parses `v` with a
successful `pickle.dump`) makes the immediately following get return `v`
(whatever its own fetch outcome or persist flag — the cache hit
short-circuits); and a failed persist leaves the store unchanged, so a later
get is a plain cache miss instead of an aborted pipeline.  The code has no
TTL at all — entries never expire — so the round trip holds for the claim's
"positive TTL" puts a fortiori. -/
theorem c9_cache_round_trip (cache : List (String × ℚ)) (code : String) (v : ℚ)
    (f2 : Option (Option ℚ)) (p2 : Bool) (hmiss : cache.lookup code = none) :
    (get_fund_fee ((get_fund_fee cache code (some (some v)) true).2) code f2 p2 =
      (v, (get_fund_fee cache code (some (some v)) true).2))
    ∧ (get_fund_fee cache code (some (some v)) false).2 = cache := by
  constructor
  · simp [get_fund_fee, hmiss, List.lookup]
  · simp [get_fund_fee, hmiss]

theorem c9_cache_round_trip_witness :
    (get_fund_fee ((get_fund_fee [] "000001" (some (some (7/10))) true).2) "000001" none false =
      (7/10, (get_fund_fee [] "000001" (some (some (7/10))) true).2))
    ∧ (get_fund_fee [] "000001" (some (some (7/10))) false).2 = [] :=
  c9_cache_round_trip [] "000001" (7/10) none false rfl

/-! ## C8: no fabricated values -/

/-- C8 counterexample: when the fee fetch fails outright, `get_fund_fee`
returns the default `1.5` — bit-for-bit the same result as a genuine fetch
that parsed a real `1.5%` fee — instead of an absent value. -/
theorem c8_no_fabricated_values_cex :
    (get_fund_fee [] "000001" none true).1 = 3/2
    ∧ get_fund_fee [] "000001" none true =
        get_fund_fee [] "000001" (some (some (3/2))) false :=
  ⟨rfl, rfl⟩

/-- C8 amended: the metrics engine honours the claim — a series shorter than
`MIN_DAYS` yields `None` — but `get_fund_fee` does not: on a cache miss whose
fetch fails, and likewise when the `ManagerFee` regex finds nothing in the
payload, it substitutes the default fee `1.5` rather than an absent value. -/
theorem c8_no_fabricated_values (navs : List ℝ) (cache : List (String × ℚ))
    (code : String) (persist_ok : Bool)
    (hshort : navs.length < MIN_DAYS) (hmiss : cache.lookup code = none) :
    calculate_metrics navs = none
    ∧ (get_fund_fee cache code none persist_ok).1 = 3/2
    ∧ (get_fund_fee cache code (some none) true).1 = 3/2 := by
  refine ⟨?_, ?_, ?_⟩
  · simp [calculate_metrics, hshort]
  · simp [get_fund_fee, hmiss]
  · simp [get_fund_fee, hmiss, Option.getD]

theorem c8_no_fabricated_values_witness :
    calculate_metrics [(1 : ℝ), 2, 3] = none
    ∧ (get_fund_fee [] "000001" none true).1 = 3/2
    ∧ (get_fund_fee [] "000001" (some none) true).1 = 3/2 :=
  c8_no_fabricated_values [(1 : ℝ), 2, 3] [] "000001" true (by norm_num [MIN_DAYS]) rfl

/-! ## C10: all-or-nothing screening -/

/-- C10: `calculate_score_and_filter` returns a record iff all five criteria
pass (annualized return ≥ `MIN_RETURN`, volatility ≤ `MAX_VOLATILITY`, Sharpe
≥ `MIN_SHARPE`, fee ≤ `MAX_FEE`, top-3 industry concentration ≤ 60); every
returned record carries composite score exactly `100` and verdict `'合格'`;
any fund failing at least one criterion yields `None`. -/
theorem c10_all_or_nothing (m : ScreenMetrics) (fee conc : ℚ) :
    ((calculate_score_and_filter m fee conc).isSome = true ↔
      (MIN_RETURN ≤ m.annual_return_pct ∧ m.annual_volatility_pct ≤ MAX_VOLATILITY ∧
       MIN_SHARPE ≤ m.sharpe_ratio ∧ fee ≤ MAX_FEE ∧ conc ≤ 60))
    ∧ ∀ r, calculate_score_and_filter m fee conc = some r →
        r.score = 100 ∧ r.verdict = "合格" := by
  by_cases h1 : MIN_RETURN ≤ m.annual_return_pct <;>
  by_cases h2 : m.annual_volatility_pct ≤ MAX_VOLATILITY <;>
  by_cases h3 : MIN_SHARPE ≤ m.sharpe_ratio <;>
  by_cases h4 : fee ≤ MAX_FEE <;>
  by_cases h5 : conc ≤ 60 <;>
    simp [calculate_score_and_filter, h1, h2, h3, h4, h5]

theorem c10_all_or_nothing_witness :
    ((calculate_score_and_filter ⟨5, 20, 1⟩ 1 50).isSome = true ↔
      (MIN_RETURN ≤ (5 : ℚ) ∧ (20 : ℚ) ≤ MAX_VOLATILITY ∧
       MIN_SHARPE ≤ (1 : ℚ) ∧ (1 : ℚ) ≤ MAX_FEE ∧ (50 : ℚ) ≤ 60))
    ∧ ∀ r, calculate_score_and_filter ⟨5, 20, 1⟩ 1 50 = some r →
        r.score = 100 ∧ r.verdict = "合格" :=
  c10_all_or_nothing ⟨5, 20, 1⟩ 1 50

/-! ## Metrics-engine lemmas (flat and concrete series) -/

theorem pctChange_replicate (v : ℝ) (hv : v ≠ 0) :
    ∀ n, pctChange (List.replicate (n + 1) v) = List.replicate n 0
  | 0 => rfl
  | n + 1 => by
    have ih := pctChange_replicate v hv n
    have h2 : List.replicate (n + 1 + 1) v = v :: v :: List.replicate n v := by
      rw [List.replicate_succ, List.replicate_succ]
    simp only [pctChange] at ih ⊢
    rw [List.replicate_succ, List.tail_cons] at ih
    rw [h2, List.tail_cons, List.zip_cons_cons, List.map_cons, ih]
    rw [List.replicate_succ]
    norm_num [div_self hv]

theorem listMean_replicate_zero (k : Nat) :
    listMean (List.replicate k (0 : ℝ)) = 0 := by
  simp [listMean, List.sum_replicate]

theorem sampleStd_replicate_zero (k : Nat) :
    sampleStd (List.replicate k (0 : ℝ)) = 0 := by
  unfold sampleStd
  rw [listMean_replicate_zero, List.map_replicate]
  simp

theorem foldl_max_replicate_zero :
    ∀ k, (List.replicate k (0 : ℝ)).foldl max 0 = 0
  | 0 => rfl
  | k + 1 => by
    rw [List.replicate_succ, List.foldl_cons, max_self]
    exact foldl_max_replicate_zero k

theorem foldl_min_replicate_zero :
    ∀ k, (List.replicate k (0 : ℝ)).foldl min 0 = 0
  | 0 => rfl
  | k + 1 => by
    rw [List.replicate_succ, List.foldl_cons, min_self]
    exact foldl_min_replicate_zero k

theorem getLastD_replicate (v d : ℝ) :
    ∀ n, (List.replicate (n + 1) v).getLastD d = v
  | 0 => rfl
  | n + 1 => by
    rw [List.replicate_succ, List.getLastD_cons]
    exact getLastD_replicate v v n

/-- On a constant positive series of length ≥ `MIN_DAYS`, `calculate_metrics`
yields annual return `0`, annual volatility `0` and Sharpe `0` (the
zero-volatility guard takes the `else 0` branch). -/
theorem calculate_metrics_flat (v : ℝ) (n : Nat) (hv : 0 < v) (hn : MIN_DAYS ≤ n) :
    calculate_metrics (List.replicate n v) = some ⟨0, 0, 0⟩ := by
  have hn' : 100 ≤ n := hn
  obtain ⟨m, rfl⟩ : ∃ m, n = m + 1 := ⟨n - 1, by omega⟩
  have hlast : (List.replicate (m + 1) v).getLastD 0 = v := getLastD_replicate v 0 m
  have hhead : (List.replicate (m + 1) v).headD 0 = v := by
    rw [List.replicate_succ]
    rfl
  have hpct := pctChange_replicate v (ne_of_gt hv) m
  simp only [calculate_metrics]
  rw [if_neg (not_lt.mpr (by simp [MIN_DAYS]; omega))]
  rw [hlast, hhead, hpct, sampleStd_replicate_zero, div_self (ne_of_gt hv), Real.one_rpow]
  norm_num

/-- On a constant nonzero series of length ≥ 3, `analyze_fund` yields annual
return `0`, annual volatility `0`, an undefined (`-inf`) Sharpe ratio and an
undefined (`0/0`) max drawdown. -/
theorem analyzeFund_flat (v : ℝ) (n : Nat) (hv : v ≠ 0) (hn : 3 ≤ n) :
    analyzeFund (List.replicate n v) = some ⟨some 0, some 0, none, none⟩ := by
  obtain ⟨m, rfl⟩ : ∃ m, n = m + 1 := ⟨n - 1, by omega⟩
  have hpct := pctChange_replicate v hv m
  obtain ⟨k, rfl⟩ : ∃ k, m = k + 1 := ⟨m - 1, by omega⟩
  have hmax : listMaximum (List.replicate (k + 1) (0 : ℝ)) = some 0 := by
    simp only [listMaximum, List.replicate_succ]
    rw [foldl_max_replicate_zero]
  have hmin : listMinimum (List.replicate (k + 1) (0 : ℝ)) = some 0 := by
    simp only [listMinimum, List.replicate_succ]
    rw [foldl_min_replicate_zero]
  simp only [analyzeFund, hpct, hmax, hmin]
  rw [if_neg (by simp [List.isEmpty_iff])]
  rw [if_neg (by simp; omega)]
  rw [listMean_replicate_zero, sampleStd_replicate_zero]
  norm_num

/-! ## C2: flat series -/

/-- C2 counterexample: on a constant 100-point series, `analyze_fund`'s Sharpe
ratio is undefined — `(annual_returns - 0.03) / 0` is `-inf`, not the real
number `0` the claim requires — and its max drawdown is the undefined `0/0`,
not `0`; the analysis itself succeeds (no error dict), so the undefined values
are what the caller receives. -/
theorem c2_flat_series_cex :
    Option.bind (analyzeFund (List.replicate 100 (1 : ℝ))) RiskResult.sharpe_ratio = none
    ∧ Option.bind (analyzeFund (List.replicate 100 (1 : ℝ))) RiskResult.max_drawdown = none
    ∧ analyzeFund (List.replicate 100 (1 : ℝ)) ≠ none := by
  have h := analyzeFund_flat 1 100 one_ne_zero (by norm_num)
  rw [h]
  exact ⟨rfl, rfl, by simp⟩

/-- C2 amended: for a constant positive series of length ≥ `MIN_DAYS`,
`calculate_metrics` returns annualized volatility `0` and Sharpe `0` (a real
number, via its explicit zero-volatility guard) — and computes no max
drawdown at all — while `analyze_fund` returns volatility `0` but an
undefined (`-inf`) Sharpe and an undefined (`0/0`) max drawdown. -/
theorem c2_flat_series (v : ℝ) (n : Nat) (hv : 0 < v) (hn : MIN_DAYS ≤ n) :
    calculate_metrics (List.replicate n v) = some ⟨0, 0, 0⟩
    ∧ analyzeFund (List.replicate n v) = some ⟨some 0, some 0, none, none⟩ :=
  ⟨calculate_metrics_flat v n hv hn,
    analyzeFund_flat v n (ne_of_gt hv) (le_trans (by norm_num [MIN_DAYS]) hn)⟩

theorem c2_flat_series_witness :
    calculate_metrics (List.replicate 100 (2 : ℝ)) = some ⟨0, 0, 0⟩
    ∧ analyzeFund (List.replicate 100 (2 : ℝ)) = some ⟨some 0, some 0, none, none⟩ :=
  c2_flat_series 2 100 (by norm_num) (le_refl 100)

/-! ## C3: max drawdown ≤ 0 and volatility ≥ 0 -/

/-- C3, evaluating the code at the failing input: on the NAV series
`[1, 1.1, 0.99]` (daily returns `[0.1, -0.1]`), `analyze_fund` computes
`max_drawdown = (max - min) / max = 0.2 / 0.1 = 2`, which is positive — the
code's `(returns.max() - returns.min()) / returns.max()` is not the
drawdown formula the spec states (`min` of the cumulative curve's decline,
always ≤ 0). -/
theorem c3_max_drawdown_sign_bug :
    Option.bind (analyzeFund [(1 : ℝ), 11/10, 99/100]) RiskResult.max_drawdown = some 2
    ∧ ¬ ((2 : ℝ) ≤ 0) := by
  have hpct : pctChange [(1 : ℝ), 11/10, 99/100] = [1/10, -1/10] := by
    unfold pctChange
    norm_num
  have hmax : listMaximum [(1 : ℝ)/10, -1/10] = some (1/10) := by
    simp only [listMaximum, List.foldl_cons, List.foldl_nil]
    rw [max_eq_left (by norm_num)]
  have hmin : listMinimum [(1 : ℝ)/10, -1/10] = some (-1/10) := by
    simp only [listMinimum, List.foldl_cons, List.foldl_nil]
    rw [min_eq_right (by norm_num)]
  constructor
  · simp only [analyzeFund, hpct, hmax, hmin]
    rw [if_neg (by simp)]
    rw [if_neg (by norm_num)]
    simp only [Option.bind_some]
    norm_num
  · norm_num

/-! ## C7: the annualized-return formula -/

theorem calculate_metrics_annual_return (navs : List ℝ) (hn : 100 ≤ navs.length) :
    Option.map FundMetrics.annual_return_pct (calculate_metrics navs) =
      some (((navs.getLastD 0 / navs.headD 0) ^ ((252 : ℝ) / (navs.length : ℝ)) - 1) * 100) := by
  simp only [calculate_metrics]
  rw [if_neg (not_lt.mpr (by simp [MIN_DAYS]; omega))]
  rfl

/-- C7 counterexample: on a 100-point series from NAV 1 to NAV 2, the code's
annualized return uses exponent `252 / len(df) = 252/100`, whereas the claim's
`252 / n` with `n` the number of return observations (`99`) would give the
strictly larger `2^(252/99) - 1`; the two values differ. -/
theorem c7_annual_return_cex :
    Option.map FundMetrics.annual_return_pct
        (calculate_metrics ((1 : ℝ) :: List.replicate 99 2)) ≠
      some (specAnnualReturn ((1 : ℝ) :: List.replicate 99 2) * 100) := by
  have hlen : ((1 : ℝ) :: List.replicate 99 2).length = 100 := by simp
  have hlast : ((1 : ℝ) :: List.replicate 99 2).getLastD 0 = 2 := by
    rw [List.getLastD_cons]
    exact getLastD_replicate 2 1 98
  have hcode := calculate_metrics_annual_return ((1 : ℝ) :: List.replicate 99 2) (by rw [hlen])
  rw [hcode, hlast]
  have hspec : specAnnualReturn ((1 : ℝ) :: List.replicate 99 2) =
      (2 : ℝ) ^ ((252 : ℝ) / 99) - 1 := by
    unfold specAnnualReturn totalReturn
    rw [hlast, hlen]
    norm_num
  rw [hspec]
  simp only [List.headD_cons, hlen]
  have hlt : (2 : ℝ) ^ ((252 : ℝ) / 100) < (2 : ℝ) ^ ((252 : ℝ) / 99) :=
    (Real.rpow_lt_rpow_left_iff one_lt_two).mpr (by norm_num)
  intro h
  rw [Option.some.injEq] at h
  norm_num at h
  linarith

/-- C7 amended: `calculate_metrics` computes the annualized return as
`(1 + total_return) ^ (252 / m) - 1` where `m = len(df)` is the number of
price points in the series — one more than the number of return
observations the claim states. -/
theorem c7_annual_return (navs : List ℝ) (hn : MIN_DAYS ≤ navs.length) :
    Option.map FundMetrics.annual_return_pct (calculate_metrics navs) =
      some (((1 + totalReturn navs) ^ ((252 : ℝ) / (navs.length : ℝ)) - 1) * 100) := by
  have hn' : 100 ≤ navs.length := hn
  rw [calculate_metrics_annual_return navs hn']
  unfold totalReturn
  have harg : 1 + (navs.getLastD 0 / navs.headD 0 - 1) = navs.getLastD 0 / navs.headD 0 := by
    ring
  rw [harg]

theorem c7_annual_return_witness :
    Option.map FundMetrics.annual_return_pct
        (calculate_metrics ((1 : ℝ) :: List.replicate 99 2)) =
      some (((1 + totalReturn ((1 : ℝ) :: List.replicate 99 2)) ^
        ((252 : ℝ) / (((1 : ℝ) :: List.replicate 99 2).length : ℝ)) - 1) * 100) :=
  c7_annual_return ((1 : ℝ) :: List.replicate 99 2) (by simp [MIN_DAYS])
